import Mathlib

/-!
Verification of the shopping web app (`src/app.py`): the latency simulator,
the probabilistic failure gates, the cart store and the request dispatcher,
embedded shallowly. Prices, latencies and random draws are modelled as exact
rationals; the `time.sleep` side effect and wall-clock timestamps are I/O and
are abstracted to the latency tier recorded in each outcome.
-/

namespace ShoppingApp

/-- One catalog entry, mirroring the dictionaries in the `PRODUCTS` list. -/
structure Product where
  id : Nat
  name : String
  price : ℚ
  category : String
deriving DecidableEq, Repr

/-- The static product catalog from `app.py` (prices in exact rationals). -/
def PRODUCTS : List Product := [
  ⟨1, "Laptop Pro 15", 129999/100, "electronics"⟩,
  ⟨2, "Wireless Mouse", 2999/100, "electronics"⟩,
  ⟨3, "USB-C Hub", 4999/100, "electronics"⟩,
  ⟨4, "Mechanical Keyboard", 14999/100, "electronics"⟩,
  ⟨5, "4K Monitor", 39999/100, "electronics"⟩,
  ⟨6, "Headphones Pro", 19999/100, "audio"⟩,
  ⟨7, "Bluetooth Speaker", 7999/100, "audio"⟩,
  ⟨8, "Webcam HD", 8999/100, "electronics"⟩,
  ⟨9, "Desk Lamp", 3499/100, "home"⟩,
  ⟨10, "Ergonomic Chair", 29999/100, "furniture"⟩]

/-- The environment-sourced configuration block at the top of `app.py`. -/
structure Config where
  baseLatency : ℚ
  productLatency : ℚ
  cartLatency : ℚ
  checkoutLatency : ℚ
  dbFailureRate : ℚ
  paymentFailureRate : ℚ
  chaosMode : Bool
  chaosMultiplier : Nat
deriving DecidableEq, Repr

/-- The default configuration (latencies 50/200/300/800 ms, rates 0.05/0.10,
chaos off, multiplier 10). -/
def defaultConfig : Config :=
  ⟨50/1000, 200/1000, 300/1000, 800/1000, 5/100, 10/100, false, 10⟩

/-- `simulate_latency`: multiply the base by the chaos multiplier when chaos
mode is on, add jitter `latency * u` where `u` is the `random.uniform(-0.2, 0.2)`
draw, and return the realized latency (the sleep itself is I/O). -/
def simulate_latency (cfg : Config) (base_latency : ℚ) (u : ℚ) : ℚ :=
  let latency := if cfg.chaosMode then base_latency * (cfg.chaosMultiplier : ℚ) else base_latency
  let jitter := latency * u
  latency + jitter

/-- `simulate_db_call` raises exactly when the `random.random()` draw is below
the DB failure rate. -/
def dbCallFails (cfg : Config) (draw : ℚ) : Bool :=
  draw < cfg.dbFailureRate

/-- `simulate_payment` raises exactly when the draw is below the payment
failure rate. -/
def paymentFails (cfg : Config) (draw : ℚ) : Bool :=
  draw < cfg.paymentFailureRate

/-- One entry of a cart's `items` list: a product with a caller-supplied
quantity. -/
structure CartItem where
  product : Product
  quantity : ℚ
deriving DecidableEq, Repr

/-- A per-user cart: `{"items": [...], "total": t}`. -/
structure Cart where
  items : List CartItem
  total : ℚ
deriving DecidableEq, Repr

/-- The `{"items": [], "total": 0}` default. -/
def emptyCart : Cart := ⟨[], 0⟩

/-- Cart keys: the JSON value used as a user id (`None` or a string). -/
abbrev UserKey := Option String

/-- The global `carts` dict, as an insertion-ordered association list. -/
abbrev CartStore := List (UserKey × Cart)

/-- `carts.get(u)`: first binding of a key, `none` when absent. -/
def lookupCart : CartStore → UserKey → Option Cart
  | [], _ => none
  | (k, c) :: rest, u => if k = u then some c else lookupCart rest u

/-- `carts[u] = c`: update in place if the key exists, append otherwise
(Python dict insertion-order semantics). -/
def setCart : CartStore → UserKey → Cart → CartStore
  | [], u, c => [(u, c)]
  | (k, c0) :: rest, u, c =>
      if k = u then (k, c) :: rest else (k, c0) :: setCart rest u c

/-- Python `path.startswith(pre)`, as a structural prefix test on the
character lists of the two strings. -/
def pyStartsWith (s pre : String) : Bool :=
  pre.data.isPrefixOf s.data

/-- Python `path.split('/')` on a character list: splitting on `'/'` keeps
empty fields, and the empty string yields `[""]`. -/
def splitSlash : List Char → List String
  | [] => [""]
  | c :: rest =>
      if c = '/' then "" :: splitSlash rest
      else
        match splitSlash rest with
        | [] => [String.mk [c]]
        | p :: ps => String.mk (c :: p.data) :: ps

/-- Python `path.split('/')`. -/
def pySplit (s : String) : List String :=
  splitSlash s.data

/-- Python `int(s)` restricted to the non-negative ids the catalog uses:
a non-empty all-digit string parses, anything else raises `ValueError`. -/
def pyInt? (s : String) : Option Nat :=
  if s.data ≠ [] ∧ s.data.all Char.isDigit then
    some (s.data.foldl (fun acc c => 10 * acc + (c.toNat - 48)) 0)
  else none

/-- `next((p for p in PRODUCTS if p['id'] == product_id), None)` where
`product_id` is the raw JSON value (possibly `None`). -/
def findProduct (product_id : Option Nat) : Option Product :=
  PRODUCTS.find? (fun p => (some p.id : Option Nat) == product_id)

/-- Result of the add-to-cart operation (lines 156-171 of `app.py`). -/
inductive AddResult
  | ok (cart : Cart) (store : CartStore)
  | productNotFound
deriving DecidableEq, Repr

/-- The add-to-cart body of `do_POST`: resolve the product id, default the
quantity to 1, append the item and bump the total, storing the updated cart. -/
def addItem (store : CartStore) (user_id : String) (product_id : Option Nat)
    (quantity : Option ℚ) : AddResult :=
  match findProduct product_id with
  | some product =>
      let q := quantity.getD 1
      let cart0 := (lookupCart store (some user_id)).getD emptyCart
      let newCart : Cart :=
        ⟨cart0.items ++ [⟨product, q⟩], cart0.total + product.price * q⟩
      .ok newCart (setCart store (some user_id) newCart)
  | none => .productNotFound

/-- Result of the checkout operation (lines 179-193 of `app.py`). -/
inductive CheckoutResult
  | ok (order_id : String) (total : ℚ) (items_count : Nat) (store : CartStore)
  | emptyCartError
deriving DecidableEq, Repr

/-- The checkout body of `do_POST`: read the cart (empty default), fail on an
empty cart, otherwise build the order from the pre-checkout cart and reset the
stored cart to empty. `orderDraw` is the `random.randint(10000, 99999)` draw. -/
def checkout (store : CartStore) (user_id : UserKey) (orderDraw : Nat) :
    CheckoutResult :=
  let cart := (lookupCart store user_id).getD emptyCart
  if cart.items = [] then
    .emptyCartError
  else
    .ok ("ORD-" ++ toString orderDraw) cart.total cart.items.length
      (setCart store user_id emptyCart)

/-- Which configured base latency a route passed to `simulate_latency`. -/
inductive Tier
  | base
  | product
  | cart
  | checkout
deriving DecidableEq, Repr

/-- The JSON body of a response, abstracted per shape. -/
inductive Payload
  | health (chaos_mode : Bool)
  | productList (products : List Product) (count : Nat)
  | productView (p : Product)
  | cartView (c : Cart)
  | categories (cats : List String)
  | orderView (order_id : String) (total : ℚ) (items_count : Nat)
  | jsonError (msg : String)
deriving DecidableEq, Repr

/-- Everything observable about handling one request: HTTP status, body,
which latency tier was applied, which gates were rolled, and the cart store
afterwards. -/
structure Outcome where
  status : Nat
  payload : Payload
  tier : Tier
  dbGateEvaluated : Bool
  paymentGateEvaluated : Bool
  store : CartStore
deriving DecidableEq, Repr

/-- The parsed JSON body of a POST request; absent fields are `none`. -/
structure PostBody where
  product_id : Option Nat
  quantity : Option ℚ
  user_id : Option String
deriving DecidableEq, Repr

/-- `ShoppingHandler.do_GET`: route on the path, apply the route's latency
tier, roll the DB gate on gated routes, and run the read. `category` is the
`category` query parameter (`none` when absent); `dbDraw` is the gate draw. -/
def do_GET (cfg : Config) (store : CartStore) (path : String)
    (category : Option String) (dbDraw : ℚ) : Outcome :=
  if path = "/" ∨ path = "/health" then
    { status := 200, payload := .health cfg.chaosMode, tier := .base,
      dbGateEvaluated := false, paymentGateEvaluated := false, store := store }
  else if path = "/api/products" then
    if dbCallFails cfg dbDraw then
      { status := 500, payload := .jsonError "Database connection failed",
        tier := .product, dbGateEvaluated := true, paymentGateEvaluated := false,
        store := store }
    else
      let products :=
        match category with
        | some c => if c = "" then PRODUCTS
                    else PRODUCTS.filter (fun p => p.category = c)
        | none => PRODUCTS
      { status := 200, payload := .productList products products.length,
        tier := .product, dbGateEvaluated := true, paymentGateEvaluated := false,
        store := store }
  else if pyStartsWith path "/api/products/" then
    if dbCallFails cfg dbDraw then
      { status := 500, payload := .jsonError "Database connection failed",
        tier := .product, dbGateEvaluated := true, paymentGateEvaluated := false,
        store := store }
    else
      match pyInt? ((pySplit path).getLastD "") with
      | none =>
          { status := 500,
            payload := .jsonError ("invalid literal for int() with base 10: "
              ++ (pySplit path).getLastD ""),
            tier := .product, dbGateEvaluated := true,
            paymentGateEvaluated := false, store := store }
      | some pid =>
          match findProduct (some pid) with
          | some p =>
              { status := 200, payload := .productView p, tier := .product,
                dbGateEvaluated := true, paymentGateEvaluated := false,
                store := store }
          | none =>
              { status := 404, payload := .jsonError "Product not found",
                tier := .product, dbGateEvaluated := true,
                paymentGateEvaluated := false, store := store }
  else if pyStartsWith path "/api/cart/" then
    if dbCallFails cfg dbDraw then
      { status := 500, payload := .jsonError "Database connection failed",
        tier := .cart, dbGateEvaluated := true, paymentGateEvaluated := false,
        store := store }
    else
      let user_id := (pySplit path).getLastD ""
      let cart := (lookupCart store (some user_id)).getD emptyCart
      { status := 200, payload := .cartView cart, tier := .cart,
        dbGateEvaluated := true, paymentGateEvaluated := false, store := store }
  else if path = "/api/categories" then
    { status := 200,
      payload := .categories ((PRODUCTS.map (fun p => p.category)).dedup),
      tier := .base, dbGateEvaluated := false, paymentGateEvaluated := false,
      store := store }
  else
    { status := 404, payload := .jsonError "Not found", tier := .base,
      dbGateEvaluated := false, paymentGateEvaluated := false, store := store }

/-- `ShoppingHandler.do_POST`: the cart branch (any path under `/api/cart/`),
the checkout branch, and the 404 fallback. `dbDraw`/`payDraw` are the gate
draws, `orderDraw` the order-id draw. -/
def do_POST (cfg : Config) (store : CartStore) (path : String) (body : PostBody)
    (dbDraw payDraw : ℚ) (orderDraw : Nat) : Outcome :=
  if pyStartsWith path "/api/cart/" then
    if dbCallFails cfg dbDraw then
      { status := 500, payload := .jsonError "Database connection failed",
        tier := .cart, dbGateEvaluated := true, paymentGateEvaluated := false,
        store := store }
    else
      let parts := pySplit path
      let user_id := parts.getD 3 ""
      if 4 < parts.length ∧ parts.getD 4 "" = "add" then
        match addItem store user_id body.product_id body.quantity with
        | .ok newCart newStore =>
            { status := 200, payload := .cartView newCart, tier := .cart,
              dbGateEvaluated := true, paymentGateEvaluated := false,
              store := newStore }
        | .productNotFound =>
            { status := 404, payload := .jsonError "Product not found",
              tier := .cart, dbGateEvaluated := true,
              paymentGateEvaluated := false, store := store }
      else
        { status := 400, payload := .jsonError "Invalid cart operation",
          tier := .cart, dbGateEvaluated := true, paymentGateEvaluated := false,
          store := store }
  else if path = "/api/checkout" then
    if dbCallFails cfg dbDraw then
      { status := 500, payload := .jsonError "Database connection failed",
        tier := .checkout, dbGateEvaluated := true,
        paymentGateEvaluated := false, store := store }
    else if paymentFails cfg payDraw then
      { status := 500, payload := .jsonError "Payment processing failed",
        tier := .checkout, dbGateEvaluated := true,
        paymentGateEvaluated := true, store := store }
    else
      match checkout store body.user_id orderDraw with
      | .ok order_id total items_count newStore =>
          { status := 200, payload := .orderView order_id total items_count,
            tier := .checkout, dbGateEvaluated := true,
            paymentGateEvaluated := true, store := newStore }
      | .emptyCartError =>
          { status := 400, payload := .jsonError "Cart is empty",
            tier := .checkout, dbGateEvaluated := true,
            paymentGateEvaluated := true, store := store }
  else
    { status := 404, payload := .jsonError "Not found", tier := .base,
      dbGateEvaluated := false, paymentGateEvaluated := false, store := store }

/-- The contribution of one cart item to the total: `price * quantity`. -/
def itemCost (it : CartItem) : ℚ :=
  it.product.price * it.quantity

/-- The cart invariant of the spec: the running total equals the sum of
`quantity * price` over the items. -/
def cartInv (c : Cart) : Prop :=
  c.total = (c.items.map itemCost).sum

/-- Every cart stored in the map satisfies the total invariant. -/
def storeInv (s : CartStore) : Prop :=
  ∀ e ∈ s, cartInv e.2

/-- The catalog product with a given id (junk default; only used under a
hypothesis that the id resolves). -/
def productOf (pid : Nat) : Product :=
  (findProduct (some pid)).getD ⟨0, "", 0, ""⟩

/-- A sequence of add-to-cart operations for one user: each request is a
`(product id, quantity)` pair, applied through `addItem`, keeping the store
unchanged on a failed add. -/
def addMany (store : CartStore) (u : String) : List (Nat × ℚ) → CartStore
  | [] => store
  | r :: rest =>
      match addItem store u (some r.1) (some r.2) with
      | .ok _ s2 => addMany s2 u rest
      | .productNotFound => addMany store u rest

/-! ### Lemmas about the cart store -/

theorem lookupCart_setCart_self (s : CartStore) (u : UserKey) (c : Cart) :
    lookupCart (setCart s u c) u = some c := by
  induction s with
  | nil => simp [setCart, lookupCart]
  | cons e rest ih =>
      obtain ⟨k, c0⟩ := e
      by_cases h : k = u <;> simp [setCart, lookupCart, h, ih]

theorem lookupCart_setCart_ne (s : CartStore) (u v : UserKey) (c : Cart)
    (h : v ≠ u) : lookupCart (setCart s u c) v = lookupCart s v := by
  induction s with
  | nil => simp [setCart, lookupCart, Ne.symm h]
  | cons e rest ih =>
      obtain ⟨k, c0⟩ := e
      by_cases hk : k = u
      · subst hk
        simp [setCart, lookupCart, Ne.symm h]
      · simp [setCart, lookupCart, hk, ih]

theorem lookupCart_mem (s : CartStore) (u : UserKey) (c : Cart)
    (h : lookupCart s u = some c) : (u, c) ∈ s := by
  induction s with
  | nil => simp [lookupCart] at h
  | cons e rest ih =>
      obtain ⟨k, c0⟩ := e
      by_cases hk : k = u
      · subst hk
        simp [lookupCart] at h
        simp [h]
      · simp [lookupCart, hk] at h
        exact List.mem_cons_of_mem _ (ih h)

theorem cartInv_emptyCart : cartInv emptyCart := by
  simp [cartInv, emptyCart]

theorem cartInv_append (c : Cart) (p : Product) (q : ℚ) (h : cartInv c) :
    cartInv ⟨c.items ++ [⟨p, q⟩], c.total + p.price * q⟩ := by
  unfold cartInv at h ⊢
  simp [itemCost, h]

theorem cartInv_getD (s : CartStore) (u : UserKey) (h : storeInv s) :
    cartInv ((lookupCart s u).getD emptyCart) := by
  cases hc : lookupCart s u with
  | none => simpa using cartInv_emptyCart
  | some c => simpa using h (u, c) (lookupCart_mem s u c hc)

theorem storeInv_setCart (s : CartStore) (u : UserKey) (c : Cart)
    (hs : storeInv s) (hc : cartInv c) : storeInv (setCart s u c) := by
  induction s with
  | nil =>
      intro e he
      simp [setCart] at he
      simp [he, hc]
  | cons e0 rest ih =>
      obtain ⟨k, c0⟩ := e0
      intro e he
      by_cases hk : k = u
      · simp [setCart, hk] at he
        rcases he with he | he
        · simp [he, hc]
        · exact hs e (List.mem_cons_of_mem _ he)
      · simp only [setCart, if_neg hk, List.mem_cons] at he
        rcases he with he | he
        · exact hs e (by simp [he])
        · exact ih (fun x hx => hs x (List.mem_cons_of_mem _ hx)) e he

theorem addItem_inv (store : CartStore) (u : String) (pid : Option Nat)
    (qty : Option ℚ) (c : Cart) (s2 : CartStore) (hs : storeInv store)
    (h : addItem store u pid qty = .ok c s2) : storeInv s2 := by
  unfold addItem at h
  cases hf : findProduct pid with
  | none => simp [hf] at h
  | some product =>
      simp only [hf] at h
      injection h with hc hstore
      subst hstore
      exact storeInv_setCart _ _ _ hs
        (cartInv_append _ _ _ (cartInv_getD store (some u) hs))

theorem checkout_inv (store : CartStore) (k : UserKey) (o : Nat)
    (oid : String) (t : ℚ) (n : Nat) (s2 : CartStore) (hs : storeInv store)
    (h : checkout store k o = .ok oid t n s2) : storeInv s2 := by
  unfold checkout at h
  by_cases he : ((lookupCart store k).getD emptyCart).items = []
  · simp [he] at h
  · simp only [if_neg he] at h
    injection h with h1 h2 h3 hstore
    subst hstore
    exact storeInv_setCart _ _ _ hs cartInv_emptyCart

theorem do_GET_store_eq (cfg : Config) (store : CartStore) (path : String)
    (category : Option String) (dbDraw : ℚ) :
    (do_GET cfg store path category dbDraw).store = store := by
  unfold do_GET
  repeat' split
  all_goals rfl

theorem do_POST_storeInv (cfg : Config) (store : CartStore) (path : String)
    (body : PostBody) (dbDraw payDraw : ℚ) (orderDraw : Nat)
    (hs : storeInv store) :
    storeInv (do_POST cfg store path body dbDraw payDraw orderDraw).store := by
  unfold do_POST
  dsimp only
  repeat' split
  all_goals
    first
    | exact hs
    | (rename_i heq; exact addItem_inv _ _ _ _ _ _ hs heq)
    | (rename_i heq; exact checkout_inv _ _ _ _ _ _ _ hs heq)

theorem findProduct_resolve (pid : Nat)
    (h : (findProduct (some pid)).isSome = true) :
    findProduct (some pid) = some (productOf pid) := by
  unfold productOf
  cases hf : findProduct (some pid) with
  | none => rw [hf] at h; simp at h
  | some p => simp

theorem addMany_getD (u : String) (reqs : List (Nat × ℚ)) :
    ∀ store : CartStore,
      (∀ r ∈ reqs, (findProduct (some r.1)).isSome = true) →
      (lookupCart (addMany store u reqs) (some u)).getD emptyCart =
        ⟨((lookupCart store (some u)).getD emptyCart).items
           ++ reqs.map (fun r => ⟨productOf r.1, r.2⟩),
         ((lookupCart store (some u)).getD emptyCart).total
           + (reqs.map (fun r => (productOf r.1).price * r.2)).sum⟩ := by
  induction reqs with
  | nil =>
      intro store _
      simp [addMany]
  | cons r rest ih =>
      intro store h
      have hr : findProduct (some r.1) = some (productOf r.1) :=
        findProduct_resolve r.1 (h r (by simp))
      have hrest : ∀ q ∈ rest, (findProduct (some q.1)).isSome = true :=
        fun q hq => h q (List.mem_cons_of_mem _ hq)
      simp only [addMany, addItem, hr]
      rw [ih _ hrest, lookupCart_setCart_self]
      simp [add_assoc]

/-! ### Claim theorems -/

/-- C1: every cart's running total equals the sum of `quantity * price` over
its items, the invariant is preserved by every GET and POST dispatch
(cart read, successful and failed add, successful and failed checkout), and
`N` successful adds for a fresh user yield a cart whose item count is `N` and
whose total is the sum of each added item's `price * quantity`. -/
theorem c1_cart_total_invariant (cfg : Config) (store : CartStore)
    (hinv : storeInv store) :
    (∀ path category dbDraw,
        storeInv (do_GET cfg store path category dbDraw).store) ∧
    (∀ path body dbDraw payDraw orderDraw,
        storeInv (do_POST cfg store path body dbDraw payDraw orderDraw).store) ∧
    (∀ (u : String) (reqs : List (Nat × ℚ)),
        lookupCart store (some u) = none →
        (∀ r ∈ reqs, (findProduct (some r.1)).isSome = true) →
        ((lookupCart (addMany store u reqs) (some u)).getD emptyCart).items.length
            = reqs.length ∧
        ((lookupCart (addMany store u reqs) (some u)).getD emptyCart).total
            = (reqs.map (fun r => (productOf r.1).price * r.2)).sum) := by
  refine ⟨?_, ?_, ?_⟩
  · intro path category dbDraw
    rw [do_GET_store_eq]
    exact hinv
  · intro path body dbDraw payDraw orderDraw
    exact do_POST_storeInv cfg store path body dbDraw payDraw orderDraw hinv
  · intro u reqs hfresh hfound
    rw [addMany_getD u reqs store hfound]
    simp [hfresh, emptyCart]

/-- Closed instance of C1: the empty store satisfies the invariant, a concrete
add preserves it, and two successful adds for the fresh user `u1` (product 1
with quantity 2, then product 3 with quantity 1) give item count 2 and total
`1299.99 * 2 + 49.99 * 1`. -/
theorem c1_cart_total_invariant_witness :
    storeInv (do_POST defaultConfig [] "/api/cart/u1/add" ⟨some 2, none, none⟩
      1 1 0).store ∧
    ((lookupCart (addMany [] "u1" [(1, 2), (3, 1)]) (some "u1")).getD
        emptyCart).items.length = 2 ∧
    ((lookupCart (addMany [] "u1" [(1, 2), (3, 1)]) (some "u1")).getD
        emptyCart).total
      = ([(1, (2 : ℚ)), (3, 1)].map
          (fun r => (productOf r.1).price * r.2)).sum := by
  have h := c1_cart_total_invariant defaultConfig []
    (by intro e he; cases he)
  have h3 := h.2.2 "u1" [(1, 2), (3, 1)] (by simp [lookupCart])
    (by decide)
  exact ⟨h.2.1 "/api/cart/u1/add" ⟨some 2, none, none⟩ 1 1 0, h3.1, h3.2⟩

/-- C2: when neither gate fires and the requesting user's cart holds at least
one item, checkout answers 200 with an order whose total and items_count are
exactly the pre-checkout cart's total and item count, and afterwards that
user's cart is stored as `{items: [], total: 0}`. -/
theorem c2_checkout_success (cfg : Config) (store : CartStore) (body : PostBody)
    (dbDraw payDraw : ℚ) (orderDraw : Nat) (c : Cart)
    (hdb : dbCallFails cfg dbDraw = false)
    (hpay : paymentFails cfg payDraw = false)
    (hc : lookupCart store body.user_id = some c)
    (hne : c.items ≠ []) :
    do_POST cfg store "/api/checkout" body dbDraw payDraw orderDraw =
      { status := 200,
        payload := .orderView ("ORD-" ++ toString orderDraw) c.total
          c.items.length,
        tier := .checkout, dbGateEvaluated := true, paymentGateEvaluated := true,
        store := setCart store body.user_id emptyCart } ∧
    lookupCart
        (do_POST cfg store "/api/checkout" body dbDraw payDraw orderDraw).store
        body.user_id = some emptyCart := by
  have hsw : pyStartsWith "/api/checkout" "/api/cart/" = false := by decide
  have hout :
      do_POST cfg store "/api/checkout" body dbDraw payDraw orderDraw =
        { status := 200,
          payload := .orderView ("ORD-" ++ toString orderDraw) c.total
            c.items.length,
          tier := .checkout, dbGateEvaluated := true,
          paymentGateEvaluated := true,
          store := setCart store body.user_id emptyCart } := by
    simp [do_POST, hsw, hdb, hpay, checkout, hc, hne]
  refine ⟨hout, ?_⟩
  rw [hout]
  exact lookupCart_setCart_self store body.user_id emptyCart

/-- Closed instance of C2: user `u1` holds one cart item (product 1,
quantity 2, total 2599.98); checkout with order draw 42 returns that total and
count 1, and the stored cart becomes empty. -/
theorem c2_checkout_success_witness :
    do_POST defaultConfig
        [(some "u1", ⟨[⟨⟨1, "Laptop Pro 15", 129999/100, "electronics"⟩, 2⟩],
          259998/100⟩)]
        "/api/checkout" ⟨none, none, some "u1"⟩ 1 1 42 =
      { status := 200,
        payload := .orderView "ORD-42" (259998/100) 1,
        tier := .checkout, dbGateEvaluated := true, paymentGateEvaluated := true,
        store := [(some "u1", emptyCart)] } ∧
    lookupCart (do_POST defaultConfig
        [(some "u1", ⟨[⟨⟨1, "Laptop Pro 15", 129999/100, "electronics"⟩, 2⟩],
          259998/100⟩)]
        "/api/checkout" ⟨none, none, some "u1"⟩ 1 1 42).store (some "u1")
      = some emptyCart := by
  have h := c2_checkout_success defaultConfig
    [(some "u1", ⟨[⟨⟨1, "Laptop Pro 15", 129999/100, "electronics"⟩, 2⟩],
      259998/100⟩)]
    ⟨none, none, some "u1"⟩ 1 1 42
    ⟨[⟨⟨1, "Laptop Pro 15", 129999/100, "electronics"⟩, 2⟩], 259998/100⟩
    (by norm_num [dbCallFails, defaultConfig])
    (by norm_num [paymentFails, defaultConfig])
    (by simp [lookupCart]) (by simp)
  refine ⟨?_, h.2⟩
  rw [h.1]
  simp [setCart, Nat.repr]
  decide

/-- C3: with the gates passing, checkout for a user whose cart has no items
answers 400 "Cart is empty" and leaves the whole cart map unchanged, and an
add with a product id that does not resolve in the catalog answers 404
"Product not found" and leaves the cart map unchanged. -/
theorem c3_error_paths_no_mutation (cfg : Config) (store : CartStore) :
    (∀ (body : PostBody) (dbDraw payDraw : ℚ) (orderDraw : Nat),
        dbCallFails cfg dbDraw = false → paymentFails cfg payDraw = false →
        ((lookupCart store body.user_id).getD emptyCart).items = [] →
        do_POST cfg store "/api/checkout" body dbDraw payDraw orderDraw =
          { status := 400, payload := .jsonError "Cart is empty",
            tier := .checkout, dbGateEvaluated := true,
            paymentGateEvaluated := true, store := store }) ∧
    (∀ (path : String) (body : PostBody) (dbDraw payDraw : ℚ) (orderDraw : Nat),
        pyStartsWith path "/api/cart/" = true →
        4 < (pySplit path).length → (pySplit path).getD 4 "" = "add" →
        dbCallFails cfg dbDraw = false →
        findProduct body.product_id = none →
        do_POST cfg store path body dbDraw payDraw orderDraw =
          { status := 404, payload := .jsonError "Product not found",
            tier := .cart, dbGateEvaluated := true,
            paymentGateEvaluated := false, store := store }) := by
  constructor
  · intro body dbDraw payDraw orderDraw hdb hpay hempty
    have hsw : pyStartsWith "/api/checkout" "/api/cart/" = false := by decide
    simp [do_POST, hsw, hdb, hpay, checkout, hempty]
  · intro path body dbDraw payDraw orderDraw hsw hlen hadd hdb hfind
    rw [List.getD_eq_getElem _ _ hlen] at hadd
    simp [do_POST, hsw, hdb, hlen, hadd, addItem, hfind]

/-- Closed instance of C3: an empty-cart checkout for `u1` and an add with
unknown product id 99 both leave the singleton store unchanged. -/
theorem c3_error_paths_no_mutation_witness :
    do_POST defaultConfig [(some "u1", emptyCart)] "/api/checkout"
        ⟨none, none, some "u1"⟩ 1 1 7 =
      { status := 400, payload := .jsonError "Cart is empty",
        tier := .checkout, dbGateEvaluated := true, paymentGateEvaluated := true,
        store := [(some "u1", emptyCart)] } ∧
    do_POST defaultConfig [(some "u1", emptyCart)] "/api/cart/u1/add"
        ⟨some 99, none, none⟩ 1 1 7 =
      { status := 404, payload := .jsonError "Product not found",
        tier := .cart, dbGateEvaluated := true, paymentGateEvaluated := false,
        store := [(some "u1", emptyCart)] } := by
  have h := c3_error_paths_no_mutation defaultConfig [(some "u1", emptyCart)]
  exact ⟨h.1 ⟨none, none, some "u1"⟩ 1 1 7
      (by norm_num [dbCallFails, defaultConfig])
      (by norm_num [paymentFails, defaultConfig])
      (by simp [lookupCart, emptyCart]),
    h.2 "/api/cart/u1/add" ⟨some 99, none, none⟩ 1 1 7
      (by decide) (by decide) (by decide)
      (by norm_num [dbCallFails, defaultConfig]) (by decide)⟩

/-- C4: on checkout the data-layer gate decides first — when it fires the
outcome is the 500 data-layer failure for every payment draw with the payment
gate never evaluated; when it passes and the payment gate fires the outcome is
the 500 payment failure; in both cases the cart map is untouched, and the two
error payloads are distinguishable. -/
theorem c4_checkout_gate_order (cfg : Config) (store : CartStore)
    (body : PostBody) (dbDraw payDraw : ℚ) (orderDraw : Nat) :
    (dbCallFails cfg dbDraw = true →
      ∀ payDraw2 : ℚ,
        do_POST cfg store "/api/checkout" body dbDraw payDraw2 orderDraw =
          { status := 500, payload := .jsonError "Database connection failed",
            tier := .checkout, dbGateEvaluated := true,
            paymentGateEvaluated := false, store := store }) ∧
    (dbCallFails cfg dbDraw = false → paymentFails cfg payDraw = true →
      do_POST cfg store "/api/checkout" body dbDraw payDraw orderDraw =
        { status := 500, payload := .jsonError "Payment processing failed",
          tier := .checkout, dbGateEvaluated := true,
          paymentGateEvaluated := true, store := store }) ∧
    Payload.jsonError "Database connection failed"
      ≠ Payload.jsonError "Payment processing failed" := by
  have hsw : pyStartsWith "/api/checkout" "/api/cart/" = false := by decide
  refine ⟨?_, ?_, by decide⟩
  · intro hdb payDraw2
    simp [do_POST, hsw, hdb]
  · intro hdb hpay
    simp [do_POST, hsw, hdb, hpay]

/-- Closed instance of C4: with the DB rate forced to 1 the gate fires on draw
1/2 and checkout reports the data-layer failure without touching the store;
with the default rates and a payment draw of 0 the payment gate fires. -/
theorem c4_checkout_gate_order_witness :
    do_POST ⟨50/1000, 200/1000, 300/1000, 800/1000, 1, 10/100, false, 10⟩
        [] "/api/checkout" ⟨none, none, some "u1"⟩ (1/2) 1 7 =
      { status := 500, payload := .jsonError "Database connection failed",
        tier := .checkout, dbGateEvaluated := true,
        paymentGateEvaluated := false, store := [] } ∧
    do_POST defaultConfig [] "/api/checkout" ⟨none, none, some "u1"⟩ 1 0 7 =
      { status := 500, payload := .jsonError "Payment processing failed",
        tier := .checkout, dbGateEvaluated := true,
        paymentGateEvaluated := true, store := [] } := by
  refine ⟨?_, ?_⟩
  · exact (c4_checkout_gate_order
      ⟨50/1000, 200/1000, 300/1000, 800/1000, 1, 10/100, false, 10⟩
      [] ⟨none, none, some "u1"⟩ (1/2) 1 7).1
      (by norm_num [dbCallFails]) 1
  · exact (c4_checkout_gate_order defaultConfig [] ⟨none, none, some "u1"⟩
      1 0 7).2.1
      (by norm_num [dbCallFails, defaultConfig])
      (by norm_num [paymentFails, defaultConfig])

theorem jitter_bounds (eff u : ℚ) (heff : 0 ≤ eff) (h1 : -(1/5) ≤ u)
    (h2 : u ≤ 1/5) : 4/5 * eff ≤ eff + eff * u ∧ eff + eff * u ≤ 6/5 * eff := by
  constructor <;> nlinarith

/-- C5: for a non-negative base latency `L` and a jitter draw in
`[-0.2, 0.2]`, the realized latency is within `[0.8 L, 1.2 L]` with chaos off,
and within `[0.8 L M, 1.2 L M]` with chaos on and multiplier `M`. -/
theorem c5_latency_bounds (cfg : Config) (L u : ℚ) (hL : 0 ≤ L)
    (hu1 : -(1/5) ≤ u) (hu2 : u ≤ 1/5) :
    (cfg.chaosMode = false →
      4/5 * L ≤ simulate_latency cfg L u ∧
      simulate_latency cfg L u ≤ 6/5 * L) ∧
    (cfg.chaosMode = true →
      4/5 * (L * (cfg.chaosMultiplier : ℚ)) ≤ simulate_latency cfg L u ∧
      simulate_latency cfg L u ≤ 6/5 * (L * (cfg.chaosMultiplier : ℚ))) := by
  constructor
  · intro hmode
    have h := jitter_bounds L u hL hu1 hu2
    simpa [simulate_latency, hmode] using h
  · intro hmode
    have heff : 0 ≤ L * (cfg.chaosMultiplier : ℚ) :=
      mul_nonneg hL (Nat.cast_nonneg _)
    have h := jitter_bounds (L * (cfg.chaosMultiplier : ℚ)) u heff hu1 hu2
    simpa [simulate_latency, hmode] using h

/-- Closed instance of C5: base 1/2 with jitter draw 1/10, under the default
(chaos off) configuration and under a chaos configuration with multiplier
10. -/
theorem c5_latency_bounds_witness :
    (4/5 * (1/2 : ℚ) ≤ simulate_latency defaultConfig (1/2) (1/10) ∧
      simulate_latency defaultConfig (1/2) (1/10) ≤ 6/5 * (1/2 : ℚ)) ∧
    (4/5 * ((1/2 : ℚ) * ((10 : Nat) : ℚ))
        ≤ simulate_latency
            ⟨50/1000, 200/1000, 300/1000, 800/1000, 5/100, 10/100, true, 10⟩
            (1/2) (1/10) ∧
      simulate_latency
          ⟨50/1000, 200/1000, 300/1000, 800/1000, 5/100, 10/100, true, 10⟩
          (1/2) (1/10)
        ≤ 6/5 * ((1/2 : ℚ) * ((10 : Nat) : ℚ))) := by
  constructor
  · exact (c5_latency_bounds defaultConfig (1/2) (1/10)
      (by norm_num) (by norm_num) (by norm_num)).1 rfl
  · exact (c5_latency_bounds
      ⟨50/1000, 200/1000, 300/1000, 800/1000, 5/100, 10/100, true, 10⟩
      (1/2) (1/10) (by norm_num) (by norm_num) (by norm_num)).2 rfl

theorem simulate_latency_nonneg (cfg : Config) (L u : ℚ) (hL : 0 ≤ L)
    (h1 : -(1/5) ≤ u) (h2 : u ≤ 1/5) : 0 ≤ simulate_latency cfg L u := by
  rcases Bool.eq_false_or_eq_true cfg.chaosMode with hm | hm
  · have he : simulate_latency cfg L u =
        L * (cfg.chaosMultiplier : ℚ) + L * (cfg.chaosMultiplier : ℚ) * u := by
      simp [simulate_latency, hm]
    rw [he]
    nlinarith [mul_nonneg hL (Nat.cast_nonneg (α := ℚ) cfg.chaosMultiplier)]
  · have he : simulate_latency cfg L u = L + L * u := by
      simp [simulate_latency, hm]
    rw [he]
    nlinarith

/-- C6 as stated is false: because the jitter is proportional to the effective
latency (`jitter = latency * u` with `u ∈ [-0.2, 0.2]`), the realized latency
is at least `0.8 * latency` and can never be negative for a non-negative base,
under any configuration. -/
theorem c6_counterexample :
    ¬ ∃ (cfg : Config) (L u : ℚ), 0 ≤ L ∧ -(1/5) ≤ u ∧ u ≤ 1/5 ∧
        simulate_latency cfg L u < 0 := by
  rintro ⟨cfg, L, u, hL, h1, h2, hlt⟩
  exact absurd hlt (not_lt.mpr (simulate_latency_nonneg cfg L u hL h1 h2))

/-- C6 amended: for every non-negative base duration and every jitter draw in
`[-0.2, 0.2]`, the realized latency computed by `simulate_latency` is
non-negative (jitter is multiplicative, so it cannot push the result below
zero). -/
theorem c6_latency_never_negative (cfg : Config) (L u : ℚ) (hL : 0 ≤ L)
    (h1 : -(1/5) ≤ u) (h2 : u ≤ 1/5) : 0 ≤ simulate_latency cfg L u :=
  simulate_latency_nonneg cfg L u hL h1 h2

/-- Closed instance of the amended C6: a very small base (1/1000) with the
most negative jitter draw still yields a non-negative realized latency. -/
theorem c6_latency_never_negative_witness :
    0 ≤ simulate_latency defaultConfig (1/1000) (-(1/5)) :=
  c6_latency_never_negative defaultConfig (1/1000) (-(1/5))
    (by norm_num) (by norm_num) (by norm_num)

/-- C7 as stated is false: a POST to `/api/cart/u1/remove` matches none of the
seven routes, yet the dispatcher answers 400 "Invalid cart operation" (not
404), applies the cart latency tier (not base) and evaluates the data-layer
gate. -/
theorem c7_counterexample :
    (do_POST defaultConfig [] "/api/cart/u1/remove" ⟨none, none, none⟩
        1 1 0).status = 400 ∧
    (do_POST defaultConfig [] "/api/cart/u1/remove" ⟨none, none, none⟩
        1 1 0).status ≠ 404 ∧
    (do_POST defaultConfig [] "/api/cart/u1/remove" ⟨none, none, none⟩
        1 1 0).tier = Tier.cart ∧
    (do_POST defaultConfig [] "/api/cart/u1/remove" ⟨none, none, none⟩
        1 1 0).dbGateEvaluated = true := by
  norm_num +decide [do_POST, dbCallFails, defaultConfig]

/-- C7 amended: GET requests matching no route, and POST requests neither
under `/api/cart/` nor to `/api/checkout`, answer 404 "Not found" on the base
latency tier with no gate evaluated; but a POST under `/api/cart/` whose fifth
path segment is not `add` stays in the cart branch: cart latency tier,
data-layer gate evaluated, and (gate passing) 400 "Invalid cart operation" —
in all three cases the store is unchanged. -/
theorem c7_unmatched_routes (cfg : Config) (store : CartStore) :
    (∀ (path : String) (category : Option String) (dbDraw : ℚ),
        ¬(path = "/" ∨ path = "/health") → path ≠ "/api/products" →
        pyStartsWith path "/api/products/" = false →
        pyStartsWith path "/api/cart/" = false →
        path ≠ "/api/categories" →
        do_GET cfg store path category dbDraw =
          { status := 404, payload := .jsonError "Not found", tier := .base,
            dbGateEvaluated := false, paymentGateEvaluated := false,
            store := store }) ∧
    (∀ (path : String) (body : PostBody) (dbDraw payDraw : ℚ) (orderDraw : Nat),
        pyStartsWith path "/api/cart/" = false → path ≠ "/api/checkout" →
        do_POST cfg store path body dbDraw payDraw orderDraw =
          { status := 404, payload := .jsonError "Not found", tier := .base,
            dbGateEvaluated := false, paymentGateEvaluated := false,
            store := store }) ∧
    (∀ (path : String) (body : PostBody) (dbDraw payDraw : ℚ) (orderDraw : Nat),
        pyStartsWith path "/api/cart/" = true →
        ¬(4 < (pySplit path).length ∧ (pySplit path).getD 4 "" = "add") →
        dbCallFails cfg dbDraw = false →
        do_POST cfg store path body dbDraw payDraw orderDraw =
          { status := 400, payload := .jsonError "Invalid cart operation",
            tier := .cart, dbGateEvaluated := true,
            paymentGateEvaluated := false, store := store }) := by
  refine ⟨?_, ?_, ?_⟩
  · intro path category dbDraw h1 h2 h3 h4 h5
    simp [do_GET, h1, h2, h3, h4, h5]
  · intro path body dbDraw payDraw orderDraw hsw hck
    simp [do_POST, hsw, hck]
  · intro path body dbDraw payDraw orderDraw hsw hnadd hdb
    have hnadd2 : ¬(4 < (pySplit path).length ∧
        (pySplit path)[4]?.getD "" = "add") := by
      simpa [List.getD_eq_getElem?_getD] using hnadd
    simp [do_POST, hsw, hdb, hnadd2]

/-- Closed instance of the amended C7: an unmatched GET and POST answer 404 on
the base tier with no gate, while `POST /api/cart/u1/remove` answers 400 on
the cart tier with the gate evaluated. -/
theorem c7_unmatched_routes_witness :
    do_GET defaultConfig [] "/nope" none 1 =
      { status := 404, payload := .jsonError "Not found", tier := .base,
        dbGateEvaluated := false, paymentGateEvaluated := false,
        store := [] } ∧
    do_POST defaultConfig [] "/nope" ⟨none, none, none⟩ 1 1 0 =
      { status := 404, payload := .jsonError "Not found", tier := .base,
        dbGateEvaluated := false, paymentGateEvaluated := false,
        store := [] } ∧
    do_POST defaultConfig [] "/api/cart/u1/remove" ⟨none, none, none⟩ 1 1 0 =
      { status := 400, payload := .jsonError "Invalid cart operation",
        tier := .cart, dbGateEvaluated := true, paymentGateEvaluated := false,
        store := [] } := by
  have h := c7_unmatched_routes defaultConfig []
  exact ⟨h.1 "/nope" none 1 (by decide) (by decide) (by decide) (by decide)
      (by decide),
    h.2.1 "/nope" ⟨none, none, none⟩ 1 1 0 (by decide) (by decide),
    h.2.2 "/api/cart/u1/remove" ⟨none, none, none⟩ 1 1 0 (by decide)
      (by decide) (by norm_num [dbCallFails, defaultConfig])⟩

/-- C8 as stated is false: a first cart read for user `u1` on an empty store
answers 200 with the empty cart, but does not create a store entry — the
store is still empty and the lookup for `u1` still misses after the read. -/
theorem c8_counterexample :
    (do_GET defaultConfig [] "/api/cart/u1" none 1).status = 200 ∧
    (do_GET defaultConfig [] "/api/cart/u1" none 1).payload
      = .cartView emptyCart ∧
    (do_GET defaultConfig [] "/api/cart/u1" none 1).store = [] ∧
    lookupCart (do_GET defaultConfig [] "/api/cart/u1" none 1).store
      (some "u1") = none := by
  norm_num +decide [do_GET, dbCallFails, defaultConfig, lookupCart]

/-- C8 amended: a cart read (gate passing) always answers 200 with the user's
stored cart, defaulting to the empty cart (zero items, zero total) for a user
with no entry, and it never modifies the store — the store entry is only
created by the first successful add, not by a read. -/
theorem c8_cart_read_no_insert (cfg : Config) (store : CartStore)
    (path : String) (category : Option String) (dbDraw : ℚ)
    (h1 : ¬(path = "/" ∨ path = "/health")) (h2 : path ≠ "/api/products")
    (h3 : pyStartsWith path "/api/products/" = false)
    (h4 : pyStartsWith path "/api/cart/" = true)
    (hdb : dbCallFails cfg dbDraw = false) :
    do_GET cfg store path category dbDraw =
      { status := 200,
        payload := .cartView
          ((lookupCart store (some ((pySplit path).getLastD ""))).getD
            emptyCart),
        tier := .cart, dbGateEvaluated := true, paymentGateEvaluated := false,
        store := store } := by
  simp [do_GET, h1, h2, h3, h4, hdb]

/-- Closed instance of the amended C8: reading `u1`'s cart from a store that
only holds `u2` returns the empty default and leaves the store unchanged. -/
theorem c8_cart_read_no_insert_witness :
    do_GET defaultConfig [(some "u2", emptyCart)] "/api/cart/u1" none 1 =
      { status := 200,
        payload := .cartView
          ((lookupCart [(some "u2", emptyCart)]
            (some ((pySplit "/api/cart/u1").getLastD ""))).getD emptyCart),
        tier := .cart, dbGateEvaluated := true, paymentGateEvaluated := false,
        store := [(some "u2", emptyCart)] } :=
  c8_cart_read_no_insert defaultConfig [(some "u2", emptyCart)] "/api/cart/u1"
    none 1 (by decide) (by decide) (by decide) (by decide)
    (by norm_num [dbCallFails, defaultConfig])

/-- C9: when the configured DB failure rate is 1, every draw in `[0, 1)` fires
the gate, so every gated route (product list, product by id, cart read, cart
add and any POST under `/api/cart/`, checkout) answers 500 for all draws,
while the ungated `/health` (and `/`) and `/api/categories` still answer
200. -/
theorem c9_db_rate_one (cfg : Config) (hrate : cfg.dbFailureRate = 1)
    (store : CartStore) (d : ℚ) (hd0 : 0 ≤ d) (hd1 : d < 1) :
    (∀ category, (do_GET cfg store "/api/products" category d).status = 500) ∧
    (∀ (path : String) (category : Option String),
        ¬(path = "/" ∨ path = "/health") → path ≠ "/api/products" →
        pyStartsWith path "/api/products/" = true →
        (do_GET cfg store path category d).status = 500) ∧
    (∀ (path : String) (category : Option String),
        ¬(path = "/" ∨ path = "/health") → path ≠ "/api/products" →
        pyStartsWith path "/api/products/" = false →
        pyStartsWith path "/api/cart/" = true →
        (do_GET cfg store path category d).status = 500) ∧
    (∀ (path : String) (body : PostBody) (payDraw : ℚ) (orderDraw : Nat),
        pyStartsWith path "/api/cart/" = true →
        (do_POST cfg store path body d payDraw orderDraw).status = 500) ∧
    (∀ (body : PostBody) (payDraw : ℚ) (orderDraw : Nat),
        (do_POST cfg store "/api/checkout" body d payDraw orderDraw).status
          = 500) ∧
    (∀ (path : String) (category : Option String),
        (path = "/" ∨ path = "/health") →
        (do_GET cfg store path category d).status = 200) ∧
    (∀ category, (do_GET cfg store "/api/categories" category d).status
        = 200) := by
  have hgate : dbCallFails cfg d = true := by
    simp [dbCallFails, hrate, hd1]
  refine ⟨?_, ?_, ?_, ?_, ?_, ?_, ?_⟩
  · intro category
    norm_num +decide [do_GET, hgate]
  · intro path category h1 h2 h3
    simp [do_GET, h1, h2, h3, hgate]
  · intro path category h1 h2 h3 h4
    simp [do_GET, h1, h2, h3, h4, hgate]
  · intro path body payDraw orderDraw hsw
    simp [do_POST, hsw, hgate]
  · intro body payDraw orderDraw
    have hsw : pyStartsWith "/api/checkout" "/api/cart/" = false := by decide
    simp [do_POST, hsw, hgate]
  · intro path category hor
    rcases hor with hp | hp <;> subst hp <;> simp [do_GET]
  · intro category
    norm_num +decide [do_GET]

/-- Closed instance of C9 at DB failure rate 1 and draw 1/2: the five gated
routes answer 500, health and categories answer 200. -/
theorem c9_db_rate_one_witness :
    (do_GET ⟨50/1000, 200/1000, 300/1000, 800/1000, 1, 10/100, false, 10⟩
      [] "/api/products" none (1/2)).status = 500 ∧
    (do_GET ⟨50/1000, 200/1000, 300/1000, 800/1000, 1, 10/100, false, 10⟩
      [] "/api/products/2" none (1/2)).status = 500 ∧
    (do_GET ⟨50/1000, 200/1000, 300/1000, 800/1000, 1, 10/100, false, 10⟩
      [] "/api/cart/u1" none (1/2)).status = 500 ∧
    (do_POST ⟨50/1000, 200/1000, 300/1000, 800/1000, 1, 10/100, false, 10⟩
      [] "/api/cart/u1/add" ⟨some 1, none, none⟩ (1/2) 1 0).status = 500 ∧
    (do_POST ⟨50/1000, 200/1000, 300/1000, 800/1000, 1, 10/100, false, 10⟩
      [] "/api/checkout" ⟨none, none, some "u1"⟩ (1/2) 1 0).status = 500 ∧
    (do_GET ⟨50/1000, 200/1000, 300/1000, 800/1000, 1, 10/100, false, 10⟩
      [] "/health" none (1/2)).status = 200 ∧
    (do_GET ⟨50/1000, 200/1000, 300/1000, 800/1000, 1, 10/100, false, 10⟩
      [] "/api/categories" none (1/2)).status = 200 := by
  have h := c9_db_rate_one
    ⟨50/1000, 200/1000, 300/1000, 800/1000, 1, 10/100, false, 10⟩ rfl
    [] (1/2) (by norm_num) (by norm_num)
  exact ⟨h.1 none,
    h.2.1 "/api/products/2" none (by decide) (by decide) (by decide),
    h.2.2.1 "/api/cart/u1" none (by decide) (by decide) (by decide) (by decide),
    h.2.2.2.1 "/api/cart/u1/add" ⟨some 1, none, none⟩ 1 0 (by decide),
    h.2.2.2.2.1 ⟨none, none, some "u1"⟩ 1 0,
    h.2.2.2.2.2.1 "/health" none (Or.inr rfl),
    h.2.2.2.2.2.2 none⟩

theorem addItem_quantity_default (store : CartStore) (u : String)
    (pid : Option Nat) : addItem store u pid none = addItem store u pid (some 1) := by
  simp [addItem]

/-- C10: an add-to-cart request whose body omits the quantity behaves exactly
as if quantity 1 had been supplied — the whole POST dispatch is equal for the
two bodies — and on a successful add the appended item carries quantity 1 and
the stored total grows by exactly the product's price. -/
theorem c10_default_quantity (cfg : Config) (store : CartStore) :
    (∀ (path : String) (pid : Option Nat) (uid : Option String)
        (dbDraw payDraw : ℚ) (orderDraw : Nat),
        do_POST cfg store path ⟨pid, none, uid⟩ dbDraw payDraw orderDraw =
          do_POST cfg store path ⟨pid, some 1, uid⟩ dbDraw payDraw orderDraw) ∧
    (∀ (u : String) (pid : Option Nat) (product : Product),
        findProduct pid = some product →
        addItem store u pid none =
          .ok
            ⟨((lookupCart store (some u)).getD emptyCart).items
               ++ [⟨product, 1⟩],
             ((lookupCart store (some u)).getD emptyCart).total
               + product.price⟩
            (setCart store (some u)
              ⟨((lookupCart store (some u)).getD emptyCart).items
                 ++ [⟨product, 1⟩],
               ((lookupCart store (some u)).getD emptyCart).total
                 + product.price⟩)) := by
  constructor
  · intro path pid uid dbDraw payDraw orderDraw
    simp only [do_POST, addItem_quantity_default]
  · intro u pid product hfind
    simp [addItem, hfind, mul_one]

/-- Closed instance of C10: adding product 2 with no quantity field equals
adding it with quantity 1, and for the empty store the resulting cart holds
the Wireless Mouse at quantity 1 with total equal to its price. -/
theorem c10_default_quantity_witness :
    do_POST defaultConfig [] "/api/cart/u1/add" ⟨some 2, none, none⟩ 1 1 0 =
      do_POST defaultConfig [] "/api/cart/u1/add" ⟨some 2, some 1, none⟩
        1 1 0 ∧
    addItem [] "u1" (some 2) none =
      .ok
        ⟨((lookupCart [] (some "u1")).getD emptyCart).items
           ++ [⟨⟨2, "Wireless Mouse", 2999/100, "electronics"⟩, 1⟩],
         ((lookupCart [] (some "u1")).getD emptyCart).total
           + (2999/100 : ℚ)⟩
        (setCart [] (some "u1")
          ⟨((lookupCart [] (some "u1")).getD emptyCart).items
             ++ [⟨⟨2, "Wireless Mouse", 2999/100, "electronics"⟩, 1⟩],
           ((lookupCart [] (some "u1")).getD emptyCart).total
             + (2999/100 : ℚ)⟩) := by
  have h := c10_default_quantity defaultConfig []
  exact ⟨h.1 "/api/cart/u1/add" (some 2) none 1 1 0,
    h.2 "u1" (some 2) ⟨2, "Wireless Mouse", 2999/100, "electronics"⟩
      (by norm_num +decide [findProduct, PRODUCTS])⟩

end ShoppingApp
